import Mathlib

/-!
Verification development for the perf-cpp event-group and sampling engine.

The C++ sources under src/ are embedded shallowly:
* machine integers (`std::uint64_t`) are `Nat` with explicit wrap-around
  (`u64sub`) where the code relies on unsigned subtraction;
* IEEE doubles are modelled by `F`: an exact rational together with the
  non-finite values `posInf`, `negInf` and `nan`.  All conversions from
  `std::uint64_t` in the translated code are treated as exact (the values
  measured in the claims are far below 2^53, where the conversion is exact);
* kernel interactions (`perf_event_open`, `ioctl`, `read`, `mmap`) are
  oracles passed explicitly as function arguments;
* C++ exceptions become `Except PerfError`.
-/

namespace Perfcpp

/-- Wrap-around subtraction of two 64-bit unsigned integers, as computed by
`end - start` on `std::uint64_t` operands. -/
def u64sub (a b : Nat) : Nat :=
  (2 ^ 64 + a % 2 ^ 64 - b % 2 ^ 64) % 2 ^ 64

/-- Model of an IEEE double: an exact rational or one of the non-finite
values.  Division by zero and multiplication with infinities follow the
IEEE-754 rules, which is what the C++ `double` arithmetic in
`perf::Group::stop` / `perf::Group::get` produces. -/
inductive F where
  | fin (q : ℚ)
  | posInf
  | negInf
  | nan
  deriving DecidableEq, Repr

/-- Conversion `double(x)` applied to an unsigned 64-bit value, treated as
exact. -/
def toF (n : Nat) : F := F.fin (n : ℚ)

/-- IEEE division on the `F` model; in particular a positive finite value
divided by zero yields `posInf` and `0 / 0` yields `nan`. -/
def F.div : F → F → F
  | F.nan, _ => F.nan
  | _, F.nan => F.nan
  | F.fin a, F.fin b =>
      if b = 0 then (if 0 < a then F.posInf else if a < 0 then F.negInf else F.nan)
      else F.fin (a / b)
  | F.fin _, F.posInf => F.fin 0
  | F.fin _, F.negInf => F.fin 0
  | F.posInf, F.fin b => if 0 ≤ b then F.posInf else F.negInf
  | F.negInf, F.fin b => if 0 ≤ b then F.negInf else F.posInf
  | F.posInf, F.posInf => F.nan
  | F.posInf, F.negInf => F.nan
  | F.negInf, F.posInf => F.nan
  | F.negInf, F.negInf => F.nan

/-- IEEE multiplication on the `F` model; `0 × ∞ = nan`. -/
def F.mul : F → F → F
  | F.nan, _ => F.nan
  | _, F.nan => F.nan
  | F.fin a, F.fin b => F.fin (a * b)
  | F.fin a, F.posInf => if 0 < a then F.posInf else if a < 0 then F.negInf else F.nan
  | F.fin a, F.negInf => if 0 < a then F.negInf else if a < 0 then F.posInf else F.nan
  | F.posInf, F.fin b => if 0 < b then F.posInf else if b < 0 then F.negInf else F.nan
  | F.negInf, F.fin b => if 0 < b then F.negInf else if b < 0 then F.posInf else F.nan
  | F.posInf, F.posInf => F.posInf
  | F.posInf, F.negInf => F.negInf
  | F.negInf, F.posInf => F.negInf
  | F.negInf, F.negInf => F.posInf

/-- `std::max(.0, x)` as evaluated on doubles (`std::max(a, b)` returns `b`
exactly when `a < b`; comparisons with `nan` are false). -/
def F.maxZero : F → F
  | F.fin q => if 0 < q then F.fin q else F.fin 0
  | F.posInf => F.posInf
  | F.negInf => F.fin 0
  | F.nan => F.fin 0

/-- Error taxonomy of the library (section 7 of the documentation); every
`throw std::runtime_error` in the sources is mapped to the corresponding
constructor. -/
inductive PerfError where
  | unknownName (name : String)
  | unknownCounterForMetric (name : String)
  | tooManyCounters
  | tooManyGroups
  | metricAsTrigger (name : String)
  | noTriggers
  | openFailure (errno : Nat)
  | startFailure
  | bufferAllocationFailure
  | emptyGroup
  deriving DecidableEq, Repr

/-- One `{value, id}` entry of the kernel read format
(`perf::CounterReadFormat::value`, src/include/perfcpp/counter.h). -/
structure CounterValue where
  value : Nat
  id : Nat
  deriving DecidableEq, Repr

/-- The kernel `read_format` snapshot `perf::CounterReadFormat`
(src/include/perfcpp/counter.h).  `count_members` is represented by
`values.length`: the kernel fills exactly `count_members` entries of the
array, and `perf::Group::value_for_id` scans exactly that many. -/
structure CounterReadFormat where
  time_enabled : Nat
  time_running : Nat
  values : List CounterValue
  deriving DecidableEq, Repr

instance : Inhabited CounterReadFormat := ⟨⟨0, 0, []⟩⟩

/-- An immutable hardware event description, `perf::CounterConfig`
(src/include/perfcpp/counter.h). -/
structure CounterConfig where
  type : Nat
  event_id : Nat
  event_id_extension_1 : Nat := 0
  event_id_extension_2 : Nat := 0
  precise_ip_field : Nat := 0
  is_frequency_field : Bool := false
  period_or_frequency_field : Nat := 4000
  deriving DecidableEq, Repr

/-- `perf::CounterConfig::is_auxiliary` (src/include/perfcpp/counter.h:46). -/
def CounterConfig.is_auxiliary (c : CounterConfig) : Bool :=
  c.event_id == 0x8203

/-- `perf::CounterConfig::period` setter (src/include/perfcpp/counter.h:28). -/
def CounterConfig.period (c : CounterConfig) (p : Nat) : CounterConfig :=
  { c with is_frequency_field := false, period_or_frequency_field := p }

/-- `perf::CounterConfig::frequency` setter (src/include/perfcpp/counter.h:33). -/
def CounterConfig.frequency (c : CounterConfig) (f : Nat) : CounterConfig :=
  { c with is_frequency_field := true, period_or_frequency_field := f }

/-- Runtime state of one `perf::Counter` (src/include/perfcpp/counter.h):
its config, the kernel-assigned id, the file descriptor (−1 when closed) and
the `precise_ip` field of the assembled attribute block. -/
structure Counter where
  config : CounterConfig
  id : Nat := 0
  file_descriptor : Int := -1
  attr_precise_ip : Nat := 0
  deriving DecidableEq, Repr

instance : Inhabited Counter := ⟨{ config := { type := 0, event_id := 0 } }⟩

/-- State of one `perf::Group` (src/include/perfcpp/group.h): member
counters, the two snapshots, and the multiplexing correction computed by
`stop`. -/
structure Group where
  members : List Counter
  start_value : CounterReadFormat := default
  end_value : CounterReadFormat := default
  multiplexing_correction : F := F.fin 0
  deriving DecidableEq, Repr

/-- A fresh, empty group (`Group::Group()`). -/
def Group.init : Group := { members := [] }

/-- `perf::Group::value_for_id` (src/src/group.cpp:152-163): linear scan of
the snapshot entries for the first one whose id matches. -/
def Group.value_for_id (counter_values : CounterReadFormat) (id : Nat) : Option Nat :=
  go counter_values.values
where
  go : List CounterValue → Option Nat
  | [] => none
  | v :: rest => if v.id = id then some v.value else go rest

/-- `perf::Group::get` (src/src/group.cpp:129-150).  The subtraction
`end − start` is 64-bit unsigned, then converted to `double`;
`std::max(.0, result)` and the multiplication by the correction follow the
double semantics of `F`. -/
def Group.get (g : Group) (index : Nat) : F :=
  if _h : index < g.members.length then
    let counter := g.members.getD index default
    let counter_start_value := Group.value_for_id g.start_value counter.id
    let counter_end_value := Group.value_for_id g.end_value counter.id
    match counter_start_value, counter_end_value with
    | some s, some e =>
        F.mul (F.maxZero (toF (u64sub e s))) g.multiplexing_correction
    | _, _ => F.fin 0
  else F.fin 0

/-- `perf::Group::start` (src/src/group.cpp:60-72).  The kernel's answer to
the leader `read` is the oracle pair `(new_start, read_ok)`: the snapshot
written into `_start_value` and whether the read returned a positive byte
count.  An empty group throws (`EmptyGroup`). -/
def Group.start (g : Group) (new_start : CounterReadFormat) (read_ok : Bool) :
    Except PerfError (Bool × Group) :=
  if g.members.isEmpty then
    .error .emptyGroup
  else
    .ok (read_ok, if read_ok then { g with start_value := new_start } else g)

/-- `perf::Group::stop` (src/src/group.cpp:84-102).  On an empty group it
returns `false` without error.  Otherwise it stores the end snapshot,
computes `correction = double(Δtime_enabled) / double(Δtime_running)` (a
plain double division, unguarded against a zero denominator) and returns
whether the read succeeded. -/
def Group.stop (g : Group) (new_end : CounterReadFormat) (read_ok : Bool) :
    Bool × Group :=
  if g.members.isEmpty then
    (false, g)
  else
    let g1 := if read_ok then { g with end_value := new_end } else g
    let correction :=
      F.div (toF (u64sub g1.end_value.time_enabled g1.start_value.time_enabled))
            (toF (u64sub g1.end_value.time_running g1.start_value.time_running))
    (read_ok, { g1 with multiplexing_correction := correction })

/-! Theorems about `Group` (claims C1, C5, C8). -/

/-- `std::max(.0, double(n))` on an unsigned value is `max 0 n`. -/
theorem maxZero_toF (n : Nat) : F.maxZero (toF n) = F.fin (max 0 (n : ℚ)) := by
  simp only [toF, F.maxZero]
  rcases Nat.eq_zero_or_pos n with h | h
  · subst h; norm_num
  · have hq : (0 : ℚ) < n := by exact_mod_cast h
    rw [if_pos hq, max_eq_right hq.le]

/-- `Group.value_for_id` is the first-match linear scan over the snapshot
entries. -/
theorem value_for_id_eq_find (v : CounterReadFormat) (id : Nat) :
    Group.value_for_id v id =
      (v.values.find? (fun cv => cv.id == id)).map CounterValue.value := by
  show Group.value_for_id.go id v.values = _
  induction v.values with
  | nil => rfl
  | cons cv rest ih =>
      by_cases h : cv.id = id
      · rw [List.find?_cons_of_pos _ (by simp [h])]
        simp [Group.value_for_id.go, h]
      · rw [List.find?_cons_of_neg _ (by simp [h])]
        simpa [Group.value_for_id.go, h] using ih

/-- A group whose start and end snapshots record the same `time_running`
(the group was never scheduled off and on, or never ran), but a positive
`time_enabled` delta and a counter delta of 20. -/
def zeroRunningGroup : Group :=
  { members := [{ config := { type := 0, event_id := 0 }, id := 1, file_descriptor := 3 }],
    start_value := { time_enabled := 0, time_running := 5, values := [⟨10, 1⟩] } }

/-- The end snapshot read by `Group::stop` for `zeroRunningGroup`. -/
def zeroRunningEnd : CounterReadFormat :=
  { time_enabled := 7, time_running := 5, values := [⟨30, 1⟩] }

/-- Claim C1: the multiplexing correction is
`(end.time_enabled − start.time_enabled) / (end.time_running − start.time_running)`,
and the claim requires `Group::get` to return 0 when the `time_running`
delta is 0.  The code computes the division unguarded: on the concrete
snapshots above (`Δtime_running = 0`, `Δtime_enabled = 7`) the stored
correction is `+∞` and `Group::get` returns `+∞`, not 0. -/
theorem stop_zero_running_correction_is_infinite :
    (zeroRunningGroup.stop zeroRunningEnd true).2.multiplexing_correction = F.posInf ∧
    (zeroRunningGroup.stop zeroRunningEnd true).2.get 0 = F.posInf ∧
    F.posInf ≠ F.fin 0 := by
  refine ⟨by decide, by decide, by decide⟩

/-- Claim C5 counterexample: `Group::stop` on an empty group evaluates to
the ordinary flag `false` with the state unchanged — it does not signal the
`EmptyGroup` error the claim requires for both `start` and `stop`
(src/src/group.cpp:87-89 returns `false` instead of throwing). -/
theorem stop_empty_group_returns_flag_not_error :
    Group.init.stop ⟨7, 5, [⟨30, 1⟩]⟩ true = (false, Group.init) := by
  decide

/-- Claim C5 (amended): `Group::start` on an empty group fails with the
`EmptyGroup` error, but `Group::stop` on an empty group returns the plain
flag `false` with no error and the group unchanged. -/
theorem start_empty_fails_stop_returns_false (g : Group) (h : g.members = [])
    (r : CounterReadFormat) (ok : Bool) :
    g.start r ok = .error .emptyGroup ∧ g.stop r ok = (false, g) := by
  unfold Group.start Group.stop
  simp [h]

/-- Witness for `start_empty_fails_stop_returns_false` at the empty group. -/
theorem start_empty_fails_stop_returns_false_witness :
    Group.init.start default true = .error .emptyGroup ∧
    Group.init.stop default true = (false, Group.init) :=
  start_empty_fails_stop_returns_false Group.init rfl default true

/-- Claim C8: `Group::get(index)` looks up the indexed member's
kernel-assigned id in both snapshots by first-match linear scan over the
recorded entries, returns `max(0, end − start) × correction` when both are
found (`end − start` being the unsigned 64-bit difference the code
computes), and returns 0 when the id is missing from either snapshot. -/
theorem get_scans_snapshots_and_scales (g : Group) (index : Nat)
    (h : index < g.members.length) :
    (∀ v id, Group.value_for_id v id =
        (v.values.find? (fun cv => cv.id == id)).map CounterValue.value) ∧
    (∀ s e,
      Group.value_for_id g.start_value (g.members.getD index default).id = some s →
      Group.value_for_id g.end_value (g.members.getD index default).id = some e →
      g.get index = F.mul (F.fin (max 0 ((u64sub e s : Nat) : ℚ))) g.multiplexing_correction) ∧
    ((Group.value_for_id g.start_value (g.members.getD index default).id = none ∨
      Group.value_for_id g.end_value (g.members.getD index default).id = none) →
      g.get index = F.fin 0) := by
  refine ⟨fun v id => value_for_id_eq_find v id, ?_, ?_⟩
  · intro s e hs he
    simp only [Group.get, dif_pos h, hs, he, maxZero_toF]
  · intro hmiss
    rcases hmiss with hs | hs
    · cases he : Group.value_for_id g.end_value (g.members.getD index default).id <;>
        simp only [Group.get, dif_pos h, hs, he]
    · cases hstart : Group.value_for_id g.start_value (g.members.getD index default).id <;>
        simp only [Group.get, dif_pos h, hs, hstart]

/-- Concrete group for the `get_scans_snapshots_and_scales` witness. -/
def witnessGroup8 : Group :=
  { members := [{ config := { type := 0, event_id := 0 }, id := 2 }],
    start_value := { time_enabled := 0, time_running := 1, values := [⟨5, 2⟩] },
    end_value := { time_enabled := 0, time_running := 1, values := [⟨9, 2⟩] } }

/-- Witness for `get_scans_snapshots_and_scales` on `witnessGroup8`. -/
theorem get_scans_snapshots_and_scales_witness :
    witnessGroup8.get 0 =
      F.mul (F.fin (max 0 ((u64sub 9 5 : Nat) : ℚ))) witnessGroup8.multiplexing_correction :=
  (get_scans_snapshots_and_scales witnessGroup8 0 (by decide)).2.1 5 9 (by decide) (by decide)

/-! Embedding of `perf::Counter::open` (claim C6). -/

/-- Errno value `EINVAL`. -/
def EINVAL : Nat := 22

/-- Errno value `EOPNOTSUPP`. -/
def EOPNOTSUPP : Nat := 95

/-- Result of the open loop: final file descriptor and errno, the
`precise_ip` value of the last attempt (left in the attribute block), and
the list of attempted precision values in order. -/
structure OpenLoopResult where
  fd : Int
  errno : Nat
  prec : Nat
  attempts : List Nat
  deriving DecidableEq, Repr

/-- The precision-fallback loop of `perf::Counter::open`
(src/src/counter.cpp:193-207): starting at the configured precision, attempt
the syscall; break when the descriptor is valid or the error is neither
`EINVAL` nor `EOPNOTSUPP`; otherwise decrement and retry, the last attempt
being made with precision 0.  `attempt p` is the kernel's answer (file
descriptor, errno) to `perf_event_open` with `attr.precise_ip = p`. -/
def openLoop (attempt : Nat → Int × Nat) : Nat → OpenLoopResult
  | 0 => ⟨(attempt 0).1, (attempt 0).2, 0, [0]⟩
  | q + 1 =>
    let fd := (attempt (q + 1)).1
    let e := (attempt (q + 1)).2
    if fd > -1 ∨ (e ≠ EINVAL ∧ e ≠ EOPNOTSUPP) then ⟨fd, e, q + 1, [q + 1]⟩
    else
      let r := openLoop attempt q
      ⟨r.fd, r.errno, r.prec, (q + 1) :: r.attempts⟩

/-- Outcome of a successful `perf::Counter::open`: the descriptor, the
kernel-assigned id read via `PERF_EVENT_IOC_ID`, the effective
`attr.precise_ip`, and the attempted precision values. -/
structure OpenOutcome where
  fd : Int
  id : Nat
  attr_precise_ip : Nat
  attempts : List Nat
  deriving DecidableEq, Repr

/-- `perf::Counter::open` (src/src/counter.cpp:188-229), abstracted over the
kernel: in sampling mode (`sample_type.has_value()`) the precision-fallback
loop runs from the configured precision; in counting mode a single syscall
is attempted with the zero-initialized `precise_ip`.  If the final
descriptor is valid, the id is queried (`idOf`) and stored; otherwise the
call throws with the final errno (`OpenFailure`). -/
def Counter.openCall (attempt : Nat → Int × Nat) (idOf : Int → Nat)
    (is_sampling : Bool) (config_precise_ip : Nat) : Except PerfError OpenOutcome :=
  let r := if is_sampling then openLoop attempt config_precise_ip
           else ⟨(attempt 0).1, (attempt 0).2, 0, [0]⟩
  if r.fd > -1 then .ok ⟨r.fd, idOf r.fd, r.prec, r.attempts⟩
  else .error (.openFailure r.errno)

/-- The list `[hi, hi − 1, …, lo]` of precision values attempted by a loop
that started at `hi` and stopped at `lo`. -/
def descRange (hi lo : Nat) : List Nat :=
  (List.range (hi + 1 - lo)).map (fun i => hi - i)

theorem descRange_self (hi : Nat) : descRange hi hi = [hi] := by
  simp [descRange, List.range_succ]

theorem descRange_cons (q lo : Nat) (h : lo ≤ q) :
    descRange (q + 1) lo = (q + 1) :: descRange q lo := by
  unfold descRange
  have h1 : q + 1 + 1 - lo = (q + 1 - lo) + 1 := by omega
  rw [h1, List.range_succ_eq_map]
  simp only [List.map_cons, Nat.sub_zero, List.map_map]
  refine congrArg _ (List.map_congr_left fun i _ => ?_)
  simp only [Function.comp_apply]
  omega

theorem openLoop_prec_le (attempt : Nat → Int × Nat) (p0 : Nat) :
    (openLoop attempt p0).prec ≤ p0 := by
  induction p0 with
  | zero => simp [openLoop]
  | succ q ih =>
      simp only [openLoop]
      split
      · exact le_refl _
      · exact Nat.le_succ_of_le ih

theorem openLoop_stop (attempt : Nat → Int × Nat) (p0 : Nat) :
    (openLoop attempt p0).fd = (attempt (openLoop attempt p0).prec).1 ∧
    (openLoop attempt p0).errno = (attempt (openLoop attempt p0).prec).2 := by
  induction p0 with
  | zero => simp [openLoop]
  | succ q ih =>
      simp only [openLoop]
      split
      · exact ⟨rfl, rfl⟩
      · exact ih

theorem openLoop_attempts (attempt : Nat → Int × Nat) (p0 : Nat) :
    (openLoop attempt p0).attempts = descRange p0 (openLoop attempt p0).prec := by
  induction p0 with
  | zero => simp [openLoop, descRange_self]
  | succ q ih =>
      simp only [openLoop]
      split
      · exact (descRange_self (q + 1)).symm
      · rw [descRange_cons q _ (openLoop_prec_le attempt q)]
        exact congrArg _ ih

theorem openLoop_failed_above (attempt : Nat → Int × Nat) (p0 : Nat) :
    ∀ q, (openLoop attempt p0).prec < q → q ≤ p0 →
      ¬ (attempt q).1 > -1 ∧ ((attempt q).2 = EINVAL ∨ (attempt q).2 = EOPNOTSUPP) := by
  induction p0 with
  | zero =>
      intro q h1 h2
      simp only [openLoop] at h1
      omega
  | succ p ih =>
      intro q h1 h2
      simp only [openLoop] at h1
      by_cases hc : (attempt (p + 1)).1 > -1 ∨
          ((attempt (p + 1)).2 ≠ EINVAL ∧ (attempt (p + 1)).2 ≠ EOPNOTSUPP)
      · rw [if_pos hc] at h1
        have h1q : p + 1 < q := h1
        omega
      · rw [if_neg hc] at h1
        have h1q : (openLoop attempt p).prec < q := h1
        rcases Nat.lt_or_ge q (p + 1) with hq | hq
        · exact ih q h1q (by omega)
        · have hq1 : q = p + 1 := by omega
          subst hq1
          have hA : ¬ (attempt (p + 1)).1 > -1 := fun hfd => hc (Or.inl hfd)
          refine ⟨hA, ?_⟩
          by_cases he : (attempt (p + 1)).2 = EINVAL
          · exact Or.inl he
          · by_cases he2 : (attempt (p + 1)).2 = EOPNOTSUPP
            · exact Or.inr he2
            · exact absurd (Or.inr ⟨he, he2⟩) hc

theorem openLoop_break (attempt : Nat → Int × Nat) (p0 : Nat) :
    (openLoop attempt p0).fd > -1 ∨
    ((openLoop attempt p0).errno ≠ EINVAL ∧ (openLoop attempt p0).errno ≠ EOPNOTSUPP) ∨
    (openLoop attempt p0).prec = 0 := by
  induction p0 with
  | zero => simp [openLoop]
  | succ q ih =>
      simp only [openLoop]
      split
      · next hc =>
          rcases hc with hc | hc
          · exact Or.inl hc
          · exact Or.inr (Or.inl hc)
      · exact ih

/-- Claim C6: sampling-mode opens run the precision fallback — the attempted
precision values are exactly `p, p−1, …, p_eff` descending from the
configured precision, every abandoned attempt failed with `EINVAL` or
`EOPNOTSUPP`, the loop stops only on a valid descriptor, a different error,
or after attempting precision 0, and the effective precision is ≤ the
requested one; counting-mode opens make exactly one attempt; on success the
kernel-assigned id is queried and stored, and on final failure the open
fails with `OpenFailure` carrying the final errno. -/
theorem counter_open_precision_fallback (attempt : Nat → Int × Nat)
    (idOf : Int → Nat) (p0 : Nat) :
    ((openLoop attempt p0).prec ≤ p0 ∧
     (openLoop attempt p0).attempts = descRange p0 (openLoop attempt p0).prec) ∧
    (∀ q, (openLoop attempt p0).prec < q → q ≤ p0 →
       ¬ (attempt q).1 > -1 ∧ ((attempt q).2 = EINVAL ∨ (attempt q).2 = EOPNOTSUPP)) ∧
    ((openLoop attempt p0).fd > -1 ∨
     ((openLoop attempt p0).errno ≠ EINVAL ∧ (openLoop attempt p0).errno ≠ EOPNOTSUPP) ∨
     (openLoop attempt p0).prec = 0) ∧
    ((openLoop attempt p0).fd > -1 →
       Counter.openCall attempt idOf true p0 =
         .ok ⟨(openLoop attempt p0).fd, idOf (openLoop attempt p0).fd,
              (openLoop attempt p0).prec, (openLoop attempt p0).attempts⟩) ∧
    (¬ (openLoop attempt p0).fd > -1 →
       Counter.openCall attempt idOf true p0 =
         .error (.openFailure (openLoop attempt p0).errno)) ∧
    (Counter.openCall attempt idOf false p0 =
       if (attempt 0).1 > -1
       then .ok ⟨(attempt 0).1, idOf (attempt 0).1, 0, [0]⟩
       else .error (.openFailure (attempt 0).2)) := by
  refine ⟨⟨openLoop_prec_le attempt p0, openLoop_attempts attempt p0⟩,
          openLoop_failed_above attempt p0, openLoop_break attempt p0, ?_, ?_, ?_⟩
  · intro hfd
    simp [Counter.openCall, hfd]
  · intro hfd
    simp [Counter.openCall, hfd]
  · rfl

/-- Witness for `counter_open_precision_fallback`: a kernel that rejects
precision 2 with `EINVAL`, precision 1 with `EOPNOTSUPP`, and accepts
precision 0 with descriptor 7. -/
theorem counter_open_precision_fallback_witness :
    Counter.openCall
      (fun p => if p = 2 then (-1, EINVAL) else if p = 1 then (-1, EOPNOTSUPP) else (7, 0))
      (fun _ => 42) true 2 = .ok ⟨7, 42, 0, [2, 1, 0]⟩ := by
  have h := (counter_open_precision_fallback
      (fun p => if p = 2 then (-1, EINVAL) else if p = 1 then (-1, EOPNOTSUPP) else (7, 0))
      (fun _ => 42) 2).2.2.2.1 (by decide)
  rw [h]
  exact rfl

/-! Embedding of the `perf::EventCounter` group break (claim C7). -/

/-- The capacity parameters of `perf::Config`
(src/include/perfcpp/config.h:119-121): `max_groups` defaults to 5 and
`max_counters_per_group` to 4. -/
structure Config where
  max_groups : Nat := 5
  max_counters_per_group : Nat := 4
  deriving DecidableEq, Repr

/-- The empty-name branch of `perf::EventCounter::add`
(src/src/event_counter.cpp:9-20): with no group yet or an empty last group,
do nothing and succeed; otherwise append a fresh empty group when below
`max_groups`; otherwise throw (`TooManyGroups`). -/
def EventCounter.addGroupBreak (config : Config) (groups : List Group) :
    Except PerfError (List Group) :=
  match groups.getLast? with
  | none => .ok groups
  | some g =>
    if g.members.isEmpty then .ok groups
    else if groups.length < config.max_groups then .ok (groups ++ [Group.init])
    else .error .tooManyGroups

/-- Claim C7: the empty-name group break of `EventCounter::add` is a no-op
exactly on an empty (or missing) current group, appends one fresh empty
group when the current group is non-empty and the group count is below
`max_groups`, and fails with `TooManyGroups` exactly when the current group
is non-empty and the group count has reached `max_groups`. -/
theorem add_empty_name_group_break (config : Config) (groups : List Group) :
    ((groups = [] ∨ ∃ g, groups.getLast? = some g ∧ g.members = []) →
       EventCounter.addGroupBreak config groups = .ok groups) ∧
    ((∃ g, groups.getLast? = some g ∧ g.members ≠ []) →
       groups.length < config.max_groups →
       EventCounter.addGroupBreak config groups = .ok (groups ++ [Group.init])) ∧
    (EventCounter.addGroupBreak config groups = .error .tooManyGroups ↔
       ((∃ g, groups.getLast? = some g ∧ g.members ≠ []) ∧
        config.max_groups ≤ groups.length)) := by
  refine ⟨?_, ?_, ?_⟩
  · rintro (h | ⟨g, hg, hm⟩)
    · subst h; rfl
    · simp [EventCounter.addGroupBreak, hg, hm]
  · rintro ⟨g, hg, hm⟩ hlen
    simp [EventCounter.addGroupBreak, hg, List.isEmpty_iff, hm, hlen]
  · constructor
    · intro h
      cases hg : groups.getLast? with
      | none => simp [EventCounter.addGroupBreak, hg] at h
      | some g =>
          by_cases hm : g.members.isEmpty
          · simp [EventCounter.addGroupBreak, hg, hm] at h
          · by_cases hlen : groups.length < config.max_groups
            · simp [EventCounter.addGroupBreak, hg, hm, hlen] at h
            · exact ⟨⟨g, rfl, by simpa [List.isEmpty_iff] using hm⟩, by omega⟩
    · rintro ⟨⟨g, hg, hm⟩, hlen⟩
      simp [EventCounter.addGroupBreak, hg, List.isEmpty_iff, hm, Nat.not_lt.mpr hlen]

/-- Witness for `add_empty_name_group_break`: one full group of one member
under the default config appends a fresh group. -/
theorem add_empty_name_group_break_witness :
    EventCounter.addGroupBreak {} [zeroRunningGroup] =
      .ok ([zeroRunningGroup] ++ [Group.init]) :=
  (add_empty_name_group_break {} [zeroRunningGroup]).2.1
    ⟨zeroRunningGroup, rfl, by decide⟩ (by decide)

/-! Embedding of `perf::CounterResult::to_json` (claim C9). -/

/-- The result container `perf::CounterResult`
(src/include/perfcpp/counter.h:57-112): an ordered list of (name, value)
pairs.  The value type is left abstract; `to_json` streams values with
`operator<<`, modelled by a rendering function. -/
structure CounterResult (V : Type) where
  results : List (String × V)
  deriving DecidableEq, Repr

/-- The entry loop of `perf::CounterResult::to_json`
(src/src/counter.cpp:33-39): a comma before every entry but the first, then
`"name": value` — with a space after the colon, exactly as the stream
insertions produce. -/
def toJsonEntries {V : Type} (render : V → String) :
    List (String × V) → Bool → String
  | [], _ => ""
  | p :: rest, is_first =>
      ((if is_first then "" else ",") ++ "\"" ++ p.1 ++ "\": " ++ render p.2) ++
        toJsonEntries render rest false

/-- `perf::CounterResult::to_json` (src/src/counter.cpp:26-44). -/
def CounterResult.to_json {V : Type} (render : V → String) (r : CounterResult V) :
    String :=
  "\x7b" ++ toJsonEntries render r.results true ++ "\x7d"

/-- Claim C9 counterexample: already on a single-entry result the JSON
output contains a space (after the colon), so the output is not free of
whitespace; the exact output for `[("a", "1")]` is `{"a": 1}` with one
space. -/
theorem to_json_contains_whitespace :
    CounterResult.to_json (fun s => s) ⟨[("a", "1")]⟩ = "\x7b\"a\": 1\x7d" ∧
    ' ' ∈ (CounterResult.to_json (fun s => s) ⟨[("a", "1")]⟩).data := by
  exact ⟨rfl, by decide⟩

/-- Separator-join: `joinSep s [a, b, …] = s ++ a ++ s ++ b ++ …`. -/
def joinSep (s : String) : List String → String
  | [] => ""
  | a :: as => s ++ a ++ joinSep s as

theorem intercalate_go_spec (s : String) (l : List String) (acc : String) :
    String.intercalate.go acc s l = acc ++ joinSep s l := by
  induction l generalizing acc with
  | nil => simp [String.intercalate.go, joinSep]
  | cons a as ih =>
      simp only [String.intercalate.go, joinSep, ih, String.append_assoc]

theorem intercalate_eq_joinSep (s : String) (l : List String) :
    String.intercalate s l =
      match l with
      | [] => ""
      | a :: as => a ++ joinSep s as := by
  cases l with
  | nil => rfl
  | cons a as => simpa [String.intercalate] using intercalate_go_spec s as a

theorem toJsonEntries_eq_intercalate {V : Type} (render : V → String)
    (l : List (String × V)) :
    toJsonEntries render l true =
      String.intercalate ","
        (l.map (fun p => "\"" ++ p.1 ++ "\": " ++ render p.2)) := by
  rw [intercalate_eq_joinSep]
  cases l with
  | nil => rfl
  | cons p rest =>
      simp only [List.map_cons, toJsonEntries, if_pos]
      have hfalse : ∀ (rest : List (String × V)),
          toJsonEntries render rest false =
            joinSep "," (rest.map (fun p => "\"" ++ p.1 ++ "\": " ++ render p.2)) := by
        intro rest
        induction rest with
        | nil => rfl
        | cons q qs ih =>
            simp [toJsonEntries, joinSep, ih, String.append_assoc]
            apply String.ext
            simp [String.data_append]
      rw [hfalse rest]
      simp [String.append_assoc]

theorem toJsonEntries_space_count {V : Type} (render : V → String)
    (l : List (String × V))
    (hl : ∀ p ∈ l, ¬ ' ' ∈ p.1.data ∧ ¬ ' ' ∈ (render p.2).data) (b : Bool) :
    (toJsonEntries render l b).data.count ' ' = l.length := by
  induction l generalizing b with
  | nil => rfl
  | cons p rest ih =>
      have hp := hl p (List.mem_cons_self p rest)
      have hrest : ∀ q ∈ rest, ¬ ' ' ∈ q.1.data ∧ ¬ ' ' ∈ (render q.2).data :=
        fun q hq => hl q (List.mem_cons_of_mem p hq)
      simp only [toJsonEntries, String.data_append, List.count_append,
        ih hrest false, List.length_cons]
      have h1 : (p.1.data).count ' ' = 0 := List.count_eq_zero.mpr hp.1
      have h2 : ((render p.2).data).count ' ' = 0 := List.count_eq_zero.mpr hp.2
      cases b <;> simp [h1, h2] <;> omega

/-- Claim C9 (amended): `to_json` emits `{"name": value,…}` in result
order; granted names and rendered values without spaces, the only
whitespace in the output is the single space after each entry's colon (one
space per entry). -/
theorem to_json_format {V : Type} (render : V → String) (l : List (String × V)) :
    CounterResult.to_json render ⟨l⟩ =
      "\x7b" ++ String.intercalate ","
        (l.map (fun p => "\"" ++ p.1 ++ "\": " ++ render p.2)) ++ "\x7d" ∧
    ((∀ p ∈ l, ¬ ' ' ∈ p.1.data ∧ ¬ ' ' ∈ (render p.2).data) →
      (CounterResult.to_json render ⟨l⟩).data.count ' ' = l.length) := by
  constructor
  · simp only [CounterResult.to_json, toJsonEntries_eq_intercalate]
  · intro hl
    have hcount := toJsonEntries_space_count render l hl true
    simp [CounterResult.to_json, String.data_append, List.count_append, hcount]

/-- Witness for `to_json_format` on a two-entry result. -/
theorem to_json_format_witness :
    CounterResult.to_json (fun s => s) ⟨[("a", "1"), ("b", "2.5")]⟩ =
      "\x7b" ++ String.intercalate ","
        ([("a", "1"), ("b", "2.5")].map
          (fun p => "\"" ++ p.1 ++ "\": " ++ (fun (s : String) => s) p.2)) ++ "\x7d" ∧
    (CounterResult.to_json (fun s => s) ⟨[("a", "1"), ("b", "2.5")]⟩).data.count ' ' = 2 :=
  ⟨(to_json_format (fun s => s) [("a", "1"), ("b", "2.5")]).1,
   (to_json_format (fun s => s) [("a", "1"), ("b", "2.5")]).2 (by decide)⟩

/-! Embedding of the `perf::Sampler` record decoding (claims C2, C3, C4). -/

/-- Bit values of the kernel sample mask, `PERF_SAMPLE_*`
(linux/perf_event.h). -/
def PERF_SAMPLE_IP : Nat := 1
def PERF_SAMPLE_TID : Nat := 2
def PERF_SAMPLE_TIME : Nat := 4
def PERF_SAMPLE_ADDR : Nat := 8
def PERF_SAMPLE_READ : Nat := 16
def PERF_SAMPLE_CALLCHAIN : Nat := 32
def PERF_SAMPLE_CPU : Nat := 128
def PERF_SAMPLE_PERIOD : Nat := 256
def PERF_SAMPLE_STREAM_ID : Nat := 512
def PERF_SAMPLE_RAW : Nat := 1024
def PERF_SAMPLE_BRANCH_STACK : Nat := 2048
def PERF_SAMPLE_REGS_USER : Nat := 4096
def PERF_SAMPLE_WEIGHT : Nat := 16384
def PERF_SAMPLE_DATA_SRC : Nat := 32768
def PERF_SAMPLE_IDENTIFIER : Nat := 65536
def PERF_SAMPLE_TRANSACTION : Nat := 131072
def PERF_SAMPLE_REGS_INTR : Nat := 262144
def PERF_SAMPLE_PHYS_ADDR : Nat := 524288
def PERF_SAMPLE_CGROUP : Nat := 2097152
def PERF_SAMPLE_DATA_PAGE_SIZE : Nat := 4194304
def PERF_SAMPLE_CODE_PAGE_SIZE : Nat := 8388608
def PERF_SAMPLE_WEIGHT_STRUCT : Nat := 16777216

/-- Record types and misc bits of the kernel record header
(linux/perf_event.h). -/
def PERF_RECORD_THROTTLE : Nat := 5
def PERF_RECORD_UNTHROTTLE : Nat := 6
def PERF_RECORD_SAMPLE : Nat := 9
def PERF_RECORD_LOST_SAMPLES : Nat := 13
def PERF_RECORD_SWITCH : Nat := 14
def PERF_RECORD_SWITCH_CPU_WIDE : Nat := 15
def PERF_RECORD_CGROUP : Nat := 19
def PERF_RECORD_MISC_KERNEL : Nat := 1
def PERF_RECORD_MISC_USER : Nat := 2
def PERF_RECORD_MISC_HYPERVISOR : Nat := 3
def PERF_RECORD_MISC_GUEST_KERNEL : Nat := 4
def PERF_RECORD_MISC_GUEST_USER : Nat := 5
def PERF_RECORD_MISC_SWITCH_OUT : Nat := 8192
def PERF_RECORD_MISC_SWITCH_OUT_PREEMPT : Nat := 16384
def PERF_RECORD_MISC_EXACT_IP : Nat := 16384

/-- Modelled from the spec: `SampleValues` (its header is not under src/)
is "a mask of kernel `PERF_SAMPLE_*` bits plus ancillary choices:
branch-type mask, user/kernel register set, max call-stack depth,
include-context-switches, include-cgroup, include-throttle, and a list of
auxiliary read counters".  `user_registers_size` / `kernel_registers_size`
are the register counts `N` of the `REGS_USER(abi, N×u64)` /
`REGS_INTR(abi, N×u64)` blocks. -/
structure SampleValues where
  mask : Nat
  user_registers_size : Nat := 0
  kernel_registers_size : Nat := 0
  is_include_throttle : Bool := false
  counters : List String := []
  deriving DecidableEq, Repr

/-- Modelled from the spec: `SampleValues::is_set` tests one bit of the
configured `PERF_SAMPLE_*` mask. -/
def SampleValues.is_set (v : SampleValues) (bit : Nat) : Bool :=
  v.mask &&& bit != 0

/-- `perf::Sample::Mode` — the execution mode a record was captured in. -/
inductive Mode where
  | Unknown
  | Kernel
  | User
  | Hypervisor
  | GuestKernel
  | GuestUser
  deriving DecidableEq, Repr

/-- One decoded branch-stack entry (`perf::Branch`); the flag bits follow
the kernel `perf_branch_entry` bitfield layout. -/
structure Branch where
  instruction_pointer_from : Nat
  instruction_pointer_to : Nat
  is_mispredicted : Bool
  is_predicted : Bool
  is_in_transaction : Bool
  is_transaction_abort : Bool
  cycles : Nat
  deriving DecidableEq, Repr

/-- Decoded sample weight (`perf::Weight`): the scalar form fills only the
first component; the struct form is the kernel `perf_sample_weight`
triple. -/
structure Weight where
  var1 : Nat
  var2 : Nat := 0
  var3 : Nat := 0
  deriving DecidableEq, Repr

/-- Decoded context-switch record payload (`perf::ContextSwitch`). -/
structure ContextSwitch where
  is_out : Bool
  is_out_preempt : Bool
  process_id : Option Nat
  thread_id : Option Nat
  deriving DecidableEq, Repr

/-- Decoded cgroup record payload (`perf::CGroup`): id plus the bytes of
the null-terminated path. -/
structure CGroup where
  id : Nat
  path : List Nat
  deriving DecidableEq, Repr

/-- A decoded record (`perf::Sample`): the mode, the exact-IP flag, and one
optional slot per decodable field; a slot is `some` exactly when the
corresponding value was read. -/
structure Sample where
  mode : Mode
  is_exact_ip : Bool := false
  sample_id : Option Nat := none
  instruction_pointer : Option Nat := none
  process_id : Option Nat := none
  thread_id : Option Nat := none
  timestamp : Option Nat := none
  stream_id : Option Nat := none
  logical_memory_address : Option Nat := none
  cpu_id : Option Nat := none
  id : Option Nat := none
  period : Option Nat := none
  counter_result : Option (List (String × F)) := none
  callchain : Option (List Nat) := none
  raw : Option (List Nat) := none
  branches : Option (List Branch) := none
  user_registers_abi : Option Nat := none
  user_registers : Option (List Nat) := none
  weight : Option Weight := none
  data_src : Option Nat := none
  transaction_abort : Option Nat := none
  kernel_registers_abi : Option Nat := none
  kernel_registers : Option (List Nat) := none
  physical_memory_address : Option Nat := none
  cgroup_id : Option Nat := none
  data_page_size : Option Nat := none
  code_page_size : Option Nat := none
  count_loss : Option Nat := none
  context_switch : Option ContextSwitch := none
  cgroup : Option CGroup := none
  throttle : Option Bool := none
  deriving DecidableEq, Repr

/-- Little-endian value of `n` bytes at offset `off` (bytes past the end of
the window read as 0). -/
def readLE (bytes : List Nat) (off n : Nat) : Nat :=
  (List.range n).foldr (fun i acc => acc * 256 + bytes.getD (off + i) 0) 0

/-- Modelled from the spec: `perf::Sampler::UserLevelBufferEntry` (its
header is not under src/) is the "cursor-style reader that advances by
typed reads and fixed skips" over the mmap'd byte window; it carries the
record header's `misc` bits and record type. -/
structure UserLevelBufferEntry where
  bytes : List Nat
  offset : Nat
  misc : Nat := 0
  rtype : Nat := PERF_RECORD_SAMPLE
  deriving DecidableEq, Repr

/-- `entry.read<std::uint64_t>()`: read 8 bytes and advance. -/
def UserLevelBufferEntry.readU64 (e : UserLevelBufferEntry) :
    Nat × UserLevelBufferEntry :=
  (readLE e.bytes e.offset 8, { e with offset := e.offset + 8 })

/-- `entry.read<std::uint32_t>()`: read 4 bytes and advance. -/
def UserLevelBufferEntry.readU32 (e : UserLevelBufferEntry) :
    Nat × UserLevelBufferEntry :=
  (readLE e.bytes e.offset 4, { e with offset := e.offset + 4 })

/-- `entry.skip<std::uint32_t>()`: advance 4 bytes. -/
def UserLevelBufferEntry.skipU32 (e : UserLevelBufferEntry) : UserLevelBufferEntry :=
  { e with offset := e.offset + 4 }

/-- `entry.read<std::uint64_t>(n)`: read `n` consecutive u64 values. -/
def UserLevelBufferEntry.readU64s (e : UserLevelBufferEntry) (n : Nat) :
    List Nat × UserLevelBufferEntry :=
  ((List.range n).map (fun i => readLE e.bytes (e.offset + 8 * i) 8),
   { e with offset := e.offset + 8 * n })

/-- `entry.read<char>(n)`: read `n` raw bytes. -/
def UserLevelBufferEntry.readBytes (e : UserLevelBufferEntry) (n : Nat) :
    List Nat × UserLevelBufferEntry :=
  ((List.range n).map (fun i => e.bytes.getD (e.offset + i) 0),
   { e with offset := e.offset + n })

/-- `entry.read<CounterReadFormat::value>(n)`: read `n` 16-byte
`{u64 value, u64 id}` entries. -/
def UserLevelBufferEntry.readValueIds (e : UserLevelBufferEntry) (n : Nat) :
    List (Nat × Nat) × UserLevelBufferEntry :=
  ((List.range n).map (fun i =>
      (readLE e.bytes (e.offset + 16 * i) 8, readLE e.bytes (e.offset + 16 * i + 8) 8)),
   { e with offset := e.offset + 16 * n })

/-- `entry.read<perf_branch_entry>(n)`: read `n` 24-byte branch entries
(`u64 from`, `u64 to`, then the flag bitfield word: bit 0 mispred, bit 1
predicted, bit 2 in_tx, bit 3 abort, bits 4-19 cycles). -/
def UserLevelBufferEntry.readBranches (e : UserLevelBufferEntry) (n : Nat) :
    List Branch × UserLevelBufferEntry :=
  ((List.range n).map (fun i =>
      let base := e.offset + 24 * i
      let flags := readLE e.bytes (base + 16) 8
      { instruction_pointer_from := readLE e.bytes base 8
        instruction_pointer_to := readLE e.bytes (base + 8) 8
        is_mispredicted := flags &&& 1 != 0
        is_predicted := (flags >>> 1) &&& 1 != 0
        is_in_transaction := (flags >>> 2) &&& 1 != 0
        is_transaction_abort := (flags >>> 3) &&& 1 != 0
        cycles := (flags >>> 4) &&& 0xFFFF }),
   { e with offset := e.offset + 24 * n })

/-- `UserLevelBufferEntry::mode` (src/src/sampler.cpp:351-367): derive the
mode from the record header's misc bits. -/
def UserLevelBufferEntry.mode (e : UserLevelBufferEntry) : Mode :=
  if e.misc &&& PERF_RECORD_MISC_KERNEL != 0 then .Kernel
  else if e.misc &&& PERF_RECORD_MISC_USER != 0 then .User
  else if e.misc &&& PERF_RECORD_MISC_HYPERVISOR != 0 then .Hypervisor
  else if e.misc &&& PERF_RECORD_MISC_GUEST_KERNEL != 0 then .GuestKernel
  else if e.misc &&& PERF_RECORD_MISC_GUEST_USER != 0 then .GuestUser
  else .Unknown

/-- Modelled from the spec: "`is_exact_ip` is the exact-IP misc bit"
(`PERF_RECORD_MISC_EXACT_IP`; the accessor's header is not under src/). -/
def UserLevelBufferEntry.is_exact_ip (e : UserLevelBufferEntry) : Bool :=
  e.misc &&& PERF_RECORD_MISC_EXACT_IP != 0

/-- Modelled from the spec: context-switch misc accessors — the
switch-out bit, the preempted-switch-out bit, and whether the record is the
cpu-wide variant (the accessors' header is not under src/). -/
def UserLevelBufferEntry.is_context_switch_out (e : UserLevelBufferEntry) : Bool :=
  e.misc &&& PERF_RECORD_MISC_SWITCH_OUT != 0

def UserLevelBufferEntry.is_context_switch_out_preempt (e : UserLevelBufferEntry) : Bool :=
  e.misc &&& PERF_RECORD_MISC_SWITCH_OUT_PREEMPT != 0

def UserLevelBufferEntry.is_context_switch_cpu_wide (e : UserLevelBufferEntry) : Bool :=
  e.rtype == PERF_RECORD_SWITCH_CPU_WIDE

def UserLevelBufferEntry.is_throttle (e : UserLevelBufferEntry) : Bool :=
  e.rtype == PERF_RECORD_THROTTLE

/-- The consumed part of the ring-buffer header page plus the bytes of the
data pages (starting at page 1): only `data_head` and `data_tail` of
`perf_event_mmap_page` are read by the library. -/
structure RingBuffer where
  data_head : Nat
  data_tail : Nat
  bytes : List Nat
  deriving DecidableEq, Repr

/-- `perf::Sampler::SampleCounter`: one opened group, the ordered
counter-name list for embedded read records, and the mmap'd buffer. -/
structure SampleCounter where
  group : Group
  counter_names : List String := []
  buffer : Option RingBuffer := none
  deriving DecidableEq, Repr

/-- `perf::Sampler::read_sample_id` (src/src/sampler.cpp:325-349): the
sample_id trailer — TID, TIME, STREAM_ID, CPU (+ skipped `res`),
IDENTIFIER, each gated by the configured mask. -/
def Sampler.read_sample_id (values : SampleValues) (e0 : UserLevelBufferEntry)
    (s0 : Sample) : Sample × UserLevelBufferEntry :=
  let (s1, e1) :=
    if values.is_set PERF_SAMPLE_TID then
      let (pid, ea) := e0.readU32
      let (tid, eb) := ea.readU32
      ({ s0 with process_id := some pid, thread_id := some tid }, eb)
    else (s0, e0)
  let (s2, e2) :=
    if values.is_set PERF_SAMPLE_TIME then
      let (v, e) := e1.readU64
      ({ s1 with timestamp := some v }, e)
    else (s1, e1)
  let (s3, e3) :=
    if values.is_set PERF_SAMPLE_STREAM_ID then
      let (v, e) := e2.readU64
      ({ s2 with stream_id := some v }, e)
    else (s2, e2)
  let (s4, e4) :=
    if values.is_set PERF_SAMPLE_CPU then
      let (v, e) := e3.readU32
      ({ s3 with cpu_id := some v }, e.skipU32)
    else (s3, e3)
  if values.is_set PERF_SAMPLE_IDENTIFIER then
    let (v, e) := e4.readU64
    ({ s4 with id := some v }, e)
  else (s4, e4)

/-- `perf::Sampler::read_sample_event` (src/src/sampler.cpp:369-573): the
sequence of mask-gated reads decoding one `PERF_RECORD_SAMPLE` payload, in
the order the code performs them. -/
def Sampler.read_sample_event (values : SampleValues) (sc : SampleCounter)
    (e0 : UserLevelBufferEntry) : Sample :=
  let s0 : Sample := { mode := e0.mode, is_exact_ip := e0.is_exact_ip }
  let (s1, e1) :=
    if values.is_set PERF_SAMPLE_IDENTIFIER then
      let (v, e) := e0.readU64
      ({ s0 with sample_id := some v }, e)
    else (s0, e0)
  let (s2, e2) :=
    if values.is_set PERF_SAMPLE_IP then
      let (v, e) := e1.readU64
      ({ s1 with instruction_pointer := some v }, e)
    else (s1, e1)
  let (s3, e3) :=
    if values.is_set PERF_SAMPLE_TID then
      let (pid, ea) := e2.readU32
      let (tid, eb) := ea.readU32
      ({ s2 with process_id := some pid, thread_id := some tid }, eb)
    else (s2, e2)
  let (s4, e4) :=
    if values.is_set PERF_SAMPLE_TIME then
      let (v, e) := e3.readU64
      ({ s3 with timestamp := some v }, e)
    else (s3, e3)
  let (s5, e5) :=
    if values.is_set PERF_SAMPLE_STREAM_ID then
      let (v, e) := e4.readU64
      ({ s4 with stream_id := some v }, e)
    else (s4, e4)
  let (s6, e6) :=
    if values.is_set PERF_SAMPLE_ADDR then
      let (v, e) := e5.readU64
      ({ s5 with logical_memory_address := some v }, e)
    else (s5, e5)
  let (s7, e7) :=
    if values.is_set PERF_SAMPLE_CPU then
      let (v, e) := e6.readU32
      ({ s6 with cpu_id := some v }, e.skipU32)
    else (s6, e6)
  let (s8, e8) :=
    if values.is_set PERF_SAMPLE_PERIOD then
      let (v, e) := e7.readU64
      ({ s7 with period := some v }, e)
    else (s7, e7)
  let (s9, e9) :=
    if values.is_set PERF_SAMPLE_READ then
      let (count, ea) := e8.readU64
      let (time_enabled, eb) := ea.readU64
      let (time_running, ec) := eb.readU64
      let correction := F.div (toF time_enabled) (toF time_running)
      let (value_ids, ed) := ec.readValueIds count
      if count = sc.group.members.length then
        let counter_results :=
          (List.range sc.group.members.length).map (fun i =>
            (sc.counter_names.getD i "",
             F.mul (toF ((value_ids.getD i (0, 0)).1)) correction))
        ({ s8 with counter_result := some counter_results }, ed)
      else (s8, ed)
    else (s8, e8)
  let (s10, e10) :=
    if values.is_set PERF_SAMPLE_CALLCHAIN then
      let (n, ea) := e9.readU64
      if n > 0 then
        let (ips, eb) := ea.readU64s n
        ({ s9 with callchain := some ips }, eb)
      else (s9, ea)
    else (s9, e9)
  let (s11, e11) :=
    if values.is_set PERF_SAMPLE_RAW then
      let (n, ea) := e10.readU32
      let (raw_data, eb) := ea.readBytes n
      ({ s10 with raw := some raw_data }, eb)
    else (s10, e10)
  let (s12, e12) :=
    if values.is_set PERF_SAMPLE_BRANCH_STACK then
      let (n, ea) := e11.readU64
      if n > 0 then
        let (bs, eb) := ea.readBranches n
        ({ s11 with branches := some bs }, eb)
      else (s11, ea)
    else (s11, e11)
  let (s13, e13) :=
    if values.is_set PERF_SAMPLE_REGS_USER then
      let (abi, ea) := e12.readU64
      let sa := { s12 with user_registers_abi := some abi }
      if values.user_registers_size > 0 then
        let (regs, eb) := ea.readU64s values.user_registers_size
        ({ sa with user_registers := some regs }, eb)
      else (sa, ea)
    else (s12, e12)
  let (s14, e14) :=
    if values.is_set PERF_SAMPLE_WEIGHT then
      let (v, e) := e13.readU64
      ({ s13 with weight := some { var1 := v &&& 0xFFFFFFFF } }, e)
    else if values.is_set PERF_SAMPLE_WEIGHT_STRUCT then
      let (v, e) := e13.readU64
      let w : Weight :=
        { var1 := v &&& 0xFFFFFFFF
          var2 := (v >>> 32) &&& 0xFFFF
          var3 := (v >>> 48) &&& 0xFFFF }
      ({ s13 with weight := some w }, e)
    else (s13, e13)
  let (s15, e15) :=
    if values.is_set PERF_SAMPLE_DATA_SRC then
      let (v, e) := e14.readU64
      ({ s14 with data_src := some v }, e)
    else (s14, e14)
  let (s16, e16) :=
    if values.is_set PERF_SAMPLE_TRANSACTION then
      let (v, e) := e15.readU64
      ({ s15 with transaction_abort := some v }, e)
    else (s15, e15)
  let (s17, e17) :=
    if values.is_set PERF_SAMPLE_REGS_INTR then
      let (abi, ea) := e16.readU64
      let sa := { s16 with kernel_registers_abi := some abi }
      if values.kernel_registers_size > 0 then
        let (regs, eb) := ea.readU64s values.kernel_registers_size
        ({ sa with kernel_registers := some regs }, eb)
      else (sa, ea)
    else (s16, e16)
  let (s18, e18) :=
    if values.is_set PERF_SAMPLE_PHYS_ADDR then
      let (v, e) := e17.readU64
      ({ s17 with physical_memory_address := some v }, e)
    else (s17, e17)
  let (s19, e19) :=
    if values.is_set PERF_SAMPLE_CGROUP then
      let (v, e) := e18.readU64
      ({ s18 with cgroup_id := some v }, e)
    else (s18, e18)
  let (s20, e20) :=
    if values.is_set PERF_SAMPLE_DATA_PAGE_SIZE then
      let (v, e) := e19.readU64
      ({ s19 with data_page_size := some v }, e)
    else (s19, e19)
  let (s21, _) :=
    if values.is_set PERF_SAMPLE_CODE_PAGE_SIZE then
      let (v, e) := e20.readU64
      ({ s20 with code_page_size := some v }, e)
    else (s20, e20)
  s21

/-- `perf::Sampler::read_loss_event` (src/src/sampler.cpp:575-586): the
loss count followed by the sample_id trailer. -/
def Sampler.read_loss_event (values : SampleValues) (e0 : UserLevelBufferEntry) :
    Sample :=
  let s0 : Sample := { mode := e0.mode }
  let (v, e1) := e0.readU64
  (Sampler.read_sample_id values e1 { s0 with count_loss := some v }).1

/-- `perf::Sampler::read_context_switch_event` (src/src/sampler.cpp:588-611):
the cpu-wide variant carries pid/tid, then the sample_id trailer. -/
def Sampler.read_context_switch_event (values : SampleValues)
    (e0 : UserLevelBufferEntry) : Sample :=
  let s0 : Sample := { mode := e0.mode }
  let is_switch_out := e0.is_context_switch_out
  let is_switch_out_preempt := e0.is_context_switch_out_preempt
  let (pid, tid, e1) :=
    if e0.is_context_switch_cpu_wide then
      let (p, ea) := e0.readU32
      let (t, eb) := ea.readU32
      (some p, some t, eb)
    else (none, none, e0)
  let (s1, _) := Sampler.read_sample_id values e1 s0
  let cs : ContextSwitch :=
    { is_out := is_switch_out, is_out_preempt := is_switch_out_preempt,
      process_id := pid, thread_id := tid }
  { s1 with context_switch := some cs }

/-- `perf::Sampler::read_cgroup_event` (src/src/sampler.cpp:613-624): the
cgroup id and the null-terminated path. -/
def Sampler.read_cgroup_event (e0 : UserLevelBufferEntry) : Sample :=
  let s0 : Sample := { mode := e0.mode }
  let (cgroup_id, e1) := e0.readU64
  let path := (e1.bytes.drop e1.offset).takeWhile (fun b => b ≠ 0)
  { s0 with cgroup := some { id := cgroup_id, path := path } }

/-- `perf::Sampler::read_throttle_event` (src/src/sampler.cpp:626-645):
time and stream id (mask-gated), the sample_id trailer, and the
throttle/unthrottle flag. -/
def Sampler.read_throttle_event (values : SampleValues)
    (e0 : UserLevelBufferEntry) : Sample :=
  let s0 : Sample := { mode := e0.mode }
  let (s1, e1) :=
    if values.is_set PERF_SAMPLE_TIME then
      let (v, e) := e0.readU64
      ({ s0 with timestamp := some v }, e)
    else (s0, e0)
  let (s2, e2) :=
    if values.is_set PERF_SAMPLE_STREAM_ID then
      let (v, e) := e1.readU64
      ({ s1 with stream_id := some v }, e)
    else (s1, e1)
  let (s3, _) := Sampler.read_sample_id values e2 s2
  { s3 with throttle := some e0.is_throttle }

/-- One step of the record dispatch in `perf::Sampler::result`
(src/src/sampler.cpp:296-314): parse the `{u32 type, u16 misc, u16 size}`
header at `off` and decode the record according to its type; types the
library does not handle produce no sample (they are skipped by `size`). -/
def Sampler.readRecord (values : SampleValues) (sc : SampleCounter)
    (bytes : List Nat) (off : Nat) : Option Sample :=
  let rtype := readLE bytes off 4
  let misc := readLE bytes (off + 4) 2
  let entry : UserLevelBufferEntry :=
    { bytes := bytes, offset := off + 8, misc := misc, rtype := rtype }
  if rtype = PERF_RECORD_SAMPLE then
    some (Sampler.read_sample_event values sc entry)
  else if rtype = PERF_RECORD_LOST_SAMPLES then
    some (Sampler.read_loss_event values entry)
  else if rtype = PERF_RECORD_SWITCH ∨ rtype = PERF_RECORD_SWITCH_CPU_WIDE then
    some (Sampler.read_context_switch_event values entry)
  else if rtype = PERF_RECORD_CGROUP then
    some (Sampler.read_cgroup_event entry)
  else if (rtype = PERF_RECORD_THROTTLE ∨ rtype = PERF_RECORD_UNTHROTTLE) ∧
      values.is_include_throttle then
    some (Sampler.read_throttle_event values entry)
  else
    none

/-- The ring-buffer walk of `perf::Sampler::result`
(src/src/sampler.cpp:291-314): from the start of page 1 until `data_head`,
decode the record at the cursor and advance by the header's `size`.  The
fuel bounds the iteration count; the caller passes `data_head + 1`, enough
for every walk whose record sizes are at least one byte (kernel records are
8-byte aligned and at least a header long). -/
def Sampler.walkRecords (values : SampleValues) (sc : SampleCounter)
    (bytes : List Nat) : Nat → Nat → Nat → List Sample
  | 0, _, _ => []
  | fuel + 1, off, endOff =>
    if off < endOff then
      let size := readLE bytes (off + 6) 2
      let rest := Sampler.walkRecords values sc bytes fuel (off + size) endOff
      match Sampler.readRecord values sc bytes off with
      | some sample => sample :: rest
      | none => rest
    else []

/-- The buffer loop of `perf::Sampler::result` (src/src/sampler.cpp:278-315).
A null buffer is skipped (`continue`); a buffer with
`data_tail >= data_head` executes `return result;`, ending the whole
function with the samples accumulated so far (the `false` flag records that
the loop did not complete, so the final sort is not reached). -/
def Sampler.resultLoop (values : SampleValues) :
    List SampleCounter → List Sample × Bool
  | [] => ([], true)
  | sc :: rest =>
    match sc.buffer with
    | none => Sampler.resultLoop values rest
    | some buf =>
      if buf.data_tail ≥ buf.data_head then ([], false)
      else
        let samples :=
          Sampler.walkRecords values sc buf.bytes (buf.data_head + 1) 0 buf.data_head
        let (rest_samples, completed) := Sampler.resultLoop values rest
        (samples ++ rest_samples, completed)

/-- `perf::Sampler::result` (src/src/sampler.cpp:272-323), abstracted over
the `std::sort` implementation: walk all buffers, then — only when the walk
ran to completion, the mask recorded TIME and sorting was requested — apply
the sort. -/
def Sampler.resultWith (sortImpl : List Sample → List Sample)
    (values : SampleValues) (counters : List SampleCounter)
    (sort_by_time : Bool) : List Sample :=
  let (samples, completed) := Sampler.resultLoop values counters
  if completed ∧ values.is_set PERF_SAMPLE_TIME ∧ sort_by_time then
    sortImpl samples
  else samples

/-! Theorems about the record decoding and the buffer walk (C2, C3, C4). -/

/-- Sample mask requesting exactly ADDR and STREAM_ID. -/
def addrStreamValues : SampleValues :=
  { mask := PERF_SAMPLE_ADDR + PERF_SAMPLE_STREAM_ID }

/-- A 16-byte sample payload: the u64 value 1 followed by the u64 value 2.
Under the kernel ABI for the mask {ADDR, STREAM_ID}, the kernel writes
`addr` first (= 1) and `stream_id` second (= 2). -/
def addrStreamEntry : UserLevelBufferEntry :=
  { bytes := [1, 0, 0, 0, 0, 0, 0, 0, 2, 0, 0, 0, 0, 0, 0, 0], offset := 0 }

/-- Claim C2: the claim (and the kernel's canonical sample layout) puts
ADDR before STREAM_ID, but `read_sample_event` reads STREAM_ID
(src/src/sampler.cpp:393-395) before ADDR (src/src/sampler.cpp:397-399):
on the payload above the decoder assigns `stream_id := 1` (the word the
kernel wrote as `addr`) and `addr := 2` (the word the kernel wrote as
`stream_id`). -/
theorem read_sample_event_reads_stream_id_before_addr :
    (Sampler.read_sample_event addrStreamValues { group := Group.init }
        addrStreamEntry).stream_id = some 1 ∧
    (Sampler.read_sample_event addrStreamValues { group := Group.init }
        addrStreamEntry).logical_memory_address = some 2 := by
  exact ⟨rfl, rfl⟩

/-- A buffer whose `data_tail` has reached `data_head` (nothing to read). -/
def emptyRingBuffer : RingBuffer := { data_head := 0, data_tail := 0, bytes := [] }

/-- A buffer holding one 8-byte `PERF_RECORD_SAMPLE` record (type 9, misc
0, size 8, empty payload). -/
def oneRecordRingBuffer : RingBuffer :=
  { data_head := 8, data_tail := 0, bytes := [9, 0, 0, 0, 0, 0, 8, 0] }

/-- Sample counter wrapping the drained buffer. -/
def drainedSampleCounter : SampleCounter :=
  { group := Group.init, buffer := some emptyRingBuffer }

/-- Sample counter wrapping the one-record buffer. -/
def pendingSampleCounter : SampleCounter :=
  { group := Group.init, buffer := some oneRecordRingBuffer }

/-- Claim C3: a buffer with `data_tail ≥ data_head` executes
`return result;` (src/src/sampler.cpp:286-288) instead of continuing with
the next buffer: with the drained buffer first, the pending buffer's
record is never decoded and `result` is empty; swapping the two buffers
shows the pending buffer's record is decodable (one sample). -/
theorem result_returns_at_first_drained_buffer :
    Sampler.resultWith (fun l => l) { mask := 0 }
        [drainedSampleCounter, pendingSampleCounter] true = [] ∧
    Sampler.resultWith (fun l => l) { mask := 0 }
        [pendingSampleCounter, drainedSampleCounter] true =
      [{ mode := Mode.Unknown }] := by
  exact ⟨rfl, rfl⟩

/-- Modelled from the spec: `SampleTimestampComparator` orders samples "by
timestamp" (its header is not under src/); a missing timestamp compares as
0 (the sort only runs when TIME was recorded). -/
def sampleTimeLt (a b : Sample) : Prop :=
  a.timestamp.getD 0 < b.timestamp.getD 0

/-- Boolean timestamp order used by the reference merge sorts. -/
def sampleTimeLe (a b : Sample) : Bool :=
  decide (a.timestamp.getD 0 ≤ b.timestamp.getD 0)

/-- The contract `std::sort` provides, and nothing more: the output is a
permutation of the input, pairwise ordered so that no later element
compares strictly below an earlier one.  `std::sort` is not stable, so the
relative order of tied elements is unspecified: any function satisfying
this contract is a legal behaviour of src/src/sampler.cpp:319. -/
def IsSortImpl (f : List Sample → List Sample) : Prop :=
  ∀ l, (f l).Perm l ∧ (f l).Pairwise (fun a b => ¬ sampleTimeLt b a)

/-- A stable, compliant implementation of the sort call. -/
def goodSort (l : List Sample) : List Sample := l.mergeSort sampleTimeLe

/-- A compliant but tie-reversing implementation of the sort call: on a
two-element tied list it returns the swapped pair, elsewhere it delegates
to the stable sort. -/
def badSort : List Sample → List Sample
  | [a, b] =>
      if sampleTimeLe a b && sampleTimeLe b a then [b, a] else goodSort [a, b]
  | l => goodSort l

theorem pairwise_mergeSort_time (l : List Sample) :
    (l.mergeSort sampleTimeLe).Pairwise (fun a b => ¬ sampleTimeLt b a) := by
  have htrans : ∀ a b c : Sample, sampleTimeLe a b = true →
      sampleTimeLe b c = true → sampleTimeLe a c = true := by
    intro a b c hab hbc
    simp only [sampleTimeLe, decide_eq_true_eq] at hab hbc ⊢
    omega
  have htotal : ∀ a b : Sample, (sampleTimeLe a b || sampleTimeLe b a) = true := by
    intro a b
    simp only [sampleTimeLe, Bool.or_eq_true, decide_eq_true_eq]
    exact Nat.le_total _ _
  exact (List.sorted_mergeSort htrans htotal l).imp (by
    intro a b hab
    simp only [sampleTimeLe, decide_eq_true_eq] at hab
    simp only [sampleTimeLt]
    omega)

theorem isSortImpl_goodSort : IsSortImpl goodSort :=
  fun l => ⟨List.mergeSort_perm l sampleTimeLe, pairwise_mergeSort_time l⟩

theorem isSortImpl_badSort : IsSortImpl badSort := by
  intro l
  match l with
  | [] => exact isSortImpl_goodSort []
  | [a] => exact isSortImpl_goodSort [a]
  | [a, b] =>
      by_cases hc : (sampleTimeLe a b && sampleTimeLe b a) = true
      · have hba : ¬ sampleTimeLt a b := by
          have h12 := hc
          simp only [Bool.and_eq_true, sampleTimeLe, decide_eq_true_eq] at h12
          simp only [sampleTimeLt]
          omega
        simp only [badSort, hc, if_true]
        refine ⟨List.Perm.swap a b [], ?_⟩
        simp [List.pairwise_cons, hba]
      · simp only [badSort, hc, if_false]
        exact isSortImpl_goodSort [a, b]
  | a :: b :: c :: rest =>
      show (goodSort _).Perm _ ∧ _
      exact isSortImpl_goodSort (a :: b :: c :: rest)

/-- Mask requesting TID and TIME. -/
def tieValues : SampleValues := { mask := PERF_SAMPLE_TID + PERF_SAMPLE_TIME }

/-- Buffer with one sample record: pid 1, tid 1, timestamp 5. -/
def tieBufferA : RingBuffer :=
  { data_head := 24, data_tail := 0,
    bytes := [9, 0, 0, 0, 0, 0, 24, 0,
              1, 0, 0, 0, 1, 0, 0, 0,
              5, 0, 0, 0, 0, 0, 0, 0] }

/-- Buffer with one sample record: pid 2, tid 2, timestamp 5 — the same
timestamp as `tieBufferA`. -/
def tieBufferB : RingBuffer :=
  { data_head := 24, data_tail := 0,
    bytes := [9, 0, 0, 0, 0, 0, 24, 0,
              2, 0, 0, 0, 2, 0, 0, 0,
              5, 0, 0, 0, 0, 0, 0, 0] }

def tieSampleCounterA : SampleCounter :=
  { group := Group.init, buffer := some tieBufferA }

def tieSampleCounterB : SampleCounter :=
  { group := Group.init, buffer := some tieBufferB }

/-- The decoded sample of `tieBufferA`. -/
def tieSampleA : Sample :=
  { mode := Mode.Unknown, process_id := some 1, thread_id := some 1,
    timestamp := some 5 }

/-- The decoded sample of `tieBufferB`. -/
def tieSampleB : Sample :=
  { mode := Mode.Unknown, process_id := some 2, thread_id := some 2,
    timestamp := some 5 }

/-- Claim C4 counterexample: `result` sorts with `std::sort`
(src/src/sampler.cpp:319), which is not stable.  `badSort` satisfies the
full `std::sort` contract, yet on two buffers whose samples carry the same
timestamp it returns them in the reverse of the per-buffer concatenation
order `[tieSampleA, tieSampleB]` that the claim mandates for ties. -/
theorem result_sort_is_not_stable :
    IsSortImpl badSort ∧
    (Sampler.resultLoop tieValues [tieSampleCounterA, tieSampleCounterB]).1 =
      [tieSampleA, tieSampleB] ∧
    tieSampleA.timestamp = tieSampleB.timestamp ∧
    tieSampleA ≠ tieSampleB ∧
    Sampler.resultWith badSort tieValues [tieSampleCounterA, tieSampleCounterB] true =
      [tieSampleB, tieSampleA] := by
  exact ⟨isSortImpl_badSort, rfl, rfl, by decide, by decide⟩

/-- Claim C4 (amended): when the buffer walk runs to completion, every
compliant `std::sort` implementation makes `result(sort_by_time := true)`
return a permutation of the per-buffer concatenation that is nondecreasing
in timestamp — the order of equal-timestamp samples is unspecified rather
than stable; with TIME not recorded (or sorting not requested) the
per-buffer concatenation is returned unsorted. -/
theorem result_sorts_by_time (f : List Sample → List Sample) (hf : IsSortImpl f)
    (values : SampleValues) (counters : List SampleCounter)
    (hcomplete : (Sampler.resultLoop values counters).2 = true) :
    (values.is_set PERF_SAMPLE_TIME = true →
      (Sampler.resultWith f values counters true).Perm
        (Sampler.resultLoop values counters).1 ∧
      (Sampler.resultWith f values counters true).Pairwise
        (fun a b => ¬ sampleTimeLt b a)) ∧
    (values.is_set PERF_SAMPLE_TIME = false →
      Sampler.resultWith f values counters true =
        (Sampler.resultLoop values counters).1) ∧
    (Sampler.resultWith f values counters false =
      (Sampler.resultLoop values counters).1) := by
  refine ⟨?_, ?_, ?_⟩
  · intro htime
    have hres : Sampler.resultWith f values counters true =
        f (Sampler.resultLoop values counters).1 := by
      simp [Sampler.resultWith, hcomplete, htime]
    rw [hres]
    exact ⟨(hf _).1, (hf _).2⟩
  · intro htime
    simp [Sampler.resultWith, htime]
  · simp [Sampler.resultWith]

/-- Witness for `result_sorts_by_time` with the stable reference sort on
the two tied buffers. -/
theorem result_sorts_by_time_witness :
    (Sampler.resultWith goodSort tieValues
        [tieSampleCounterA, tieSampleCounterB] true).Perm
      (Sampler.resultLoop tieValues [tieSampleCounterA, tieSampleCounterB]).1 ∧
    (Sampler.resultWith goodSort tieValues
        [tieSampleCounterA, tieSampleCounterB] true).Pairwise
      (fun a b => ¬ sampleTimeLt b a) :=
  (result_sorts_by_time goodSort isSortImpl_goodSort tieValues
      [tieSampleCounterA, tieSampleCounterB] (by decide)).1 (by decide)

/-! Embedding of `perf::Sampler::open` / `close` (claim C10). -/

/-- `perf::PeriodOrFrequency` (spec section 3): tagged union of a sampling
period or frequency. -/
inductive PeriodOrFrequency where
  | period (n : Nat)
  | frequency (n : Nat)
  deriving DecidableEq, Repr

/-- `perf::SampleConfig` (src/include/perfcpp/config.h:136-225): sampling
defaults — precision (default `MustHaveConstantSkid` = 1), period/frequency
(default period 4000) and the buffer page count (default 8192 + 1). -/
structure SampleConfig where
  precise_ip : Nat := 1
  period_or_frequency : PeriodOrFrequency := .period 4000
  buffer_pages : Nat := 8193
  deriving DecidableEq, Repr

/-- One resolved trigger held in `Sampler::_triggers`
(src/src/sampler.cpp:27-58): canonical event name plus optional precision
and period/frequency overrides. -/
structure TriggerRef where
  name : String
  precision : Option Nat := none
  period_or_frequency : Option PeriodOrFrequency := none
  deriving DecidableEq, Repr

/-- The sampler's collaborators: the `CounterDefinitions` catalogue
(`counter` lookup returning canonical name and config, `is_metric`), and
the kernel (`perf_event_open` attempts keyed by config and precision, the
id ioctl, and `mmap` keyed by the target descriptor; `none` models
`MAP_FAILED`/null). -/
structure SamplerOracle where
  counterDef : String → Option (String × CounterConfig)
  isMetric : String → Bool
  attempt : CounterConfig → Nat → Int × Nat
  idOf : Int → Nat
  mmapResult : Int → Option RingBuffer

/-- The trigger loop of `perf::Sampler::transform_trigger_to_sample_counter`
(src/src/sampler.cpp:207-241): resolve each trigger, apply the precision
and period/frequency overrides (falling back to the sampler defaults),
append the counter to the group, and record the trigger name when
`PERF_SAMPLE_READ` is set. -/
def Sampler.addTriggers (oracle : SamplerOracle) (values : SampleValues)
    (config : SampleConfig) :
    List TriggerRef → Group → List String →
      Except PerfError (Group × List String)
  | [], g, names => .ok (g, names)
  | t :: rest, g, names =>
    match oracle.counterDef t.name with
    | none => .error (.unknownName t.name)
    | some (_, cfg0) =>
      let cfg1 := { cfg0 with precise_ip_field := t.precision.getD config.precise_ip }
      let cfg2 :=
        match t.period_or_frequency.getD config.period_or_frequency with
        | .period n => cfg1.period n
        | .frequency n => cfg1.frequency n
      let g1 := { g with members := g.members ++ [{ config := cfg2 }] }
      let names1 :=
        if values.is_set PERF_SAMPLE_READ then names ++ [t.name] else names
      Sampler.addTriggers oracle values config rest g1 names1

/-- The read-counter loop of `transform_trigger_to_sample_counter`
(src/src/sampler.cpp:244-262): each read-value counter must not be a
metric; resolve it, record its canonical name, and append it to the
group. -/
def Sampler.addReadCounters (oracle : SamplerOracle) :
    List String → Group → List String →
      Except PerfError (Group × List String)
  | [], g, names => .ok (g, names)
  | cname :: rest, g, names =>
    if oracle.isMetric cname then .error (.metricAsTrigger cname)
    else
      match oracle.counterDef cname with
      | none => .error (.unknownName cname)
      | some (canonical, cfg) =>
        Sampler.addReadCounters oracle rest
          { g with members := g.members ++ [{ config := cfg }] }
          (names ++ [canonical])

/-- `perf::Sampler::transform_trigger_to_sample_counter`
(src/src/sampler.cpp:197-270). -/
def Sampler.transform_trigger_to_sample_counter (oracle : SamplerOracle)
    (values : SampleValues) (config : SampleConfig)
    (triggers : List TriggerRef) : Except PerfError SampleCounter := do
  let (g, names) ← Sampler.addTriggers oracle values config triggers Group.init []
  if values.is_set PERF_SAMPLE_READ then
    let (g2, names2) ← Sampler.addReadCounters oracle values.counters g names
    if names2.isEmpty then .ok { group := g2 }
    else .ok { group := g2, counter_names := names2 }
  else .ok { group := g }

/-- The member-open loop of `perf::Sampler::open`
(src/src/sampler.cpp:89-134): every counter of a sampling group is opened
in sampling mode (the precision fallback of claim C6) starting at its
config's precision; a failed open throws `OpenFailure`. -/
def Sampler.openMembers (oracle : SamplerOracle) :
    List Counter → Except PerfError (List Counter)
  | [] => .ok []
  | c :: rest =>
    match Counter.openCall (oracle.attempt c.config) oracle.idOf true
        c.config.precise_ip_field with
    | .error e => .error e
    | .ok out =>
      (Sampler.openMembers oracle rest).map
        (fun opened =>
          { c with file_descriptor := out.fd, id := out.id,
                   attr_precise_ip := out.attr_precise_ip } :: opened)

/-- Opening one `SampleCounter` (src/src/sampler.cpp:82-161): open the
members, pick the buffer descriptor — the second member when the leader is
auxiliary (Sapphire Rapids rule) — and mmap the ring buffer; a failed mmap
throws `BufferAllocationFailure`. -/
def Sampler.openSampleCounter (oracle : SamplerOracle)
    (sc : SampleCounter) : Except PerfError SampleCounter := do
  let is_leader_auxiliary := (sc.group.members.headD default).config.is_auxiliary
  let opened ← Sampler.openMembers oracle sc.group.members
  let leader_fd := (opened.headD default).file_descriptor
  let buffer_fd :=
    if is_leader_auxiliary ∧ opened.length > 1 then
      (opened.getD 1 default).file_descriptor
    else leader_fd
  match oracle.mmapResult buffer_fd with
  | none => .error .bufferAllocationFailure
  | some buf =>
      .ok { sc with group := { sc.group with members := opened },
                    buffer := some buf }

/-- State of one `perf::Sampler`: the opened flag, the resolved trigger
groups, the built sample counters, and the configuration. -/
structure SamplerState where
  is_opened : Bool := false
  triggers : List (List TriggerRef) := []
  sample_counters : List SampleCounter := []
  values : SampleValues
  config : SampleConfig := {}
  deriving Repr

/-- The build phase of `perf::Sampler::open` (src/src/sampler.cpp:69-161):
transform every trigger group into a sample counter, fail with `NoTriggers`
when none was configured, then open the counters and map a buffer per
group. -/
def Sampler.buildSampleCounters (oracle : SamplerOracle) (s : SamplerState) :
    Except PerfError (List SampleCounter) := do
  let scs ← s.triggers.mapM
    (Sampler.transform_trigger_to_sample_counter oracle s.values s.config)
  if scs.isEmpty then .error .noTriggers
  else scs.mapM (Sampler.openSampleCounter oracle)

/-- `perf::Sampler::open` (src/src/sampler.cpp:60-162): the
`std::exchange(_is_opened, true)` guard returns immediately when the
sampler is already opened; otherwise the sample counters are built and the
buffers mapped. -/
def Sampler.openSampler (oracle : SamplerOracle) (s : SamplerState) :
    Except PerfError SamplerState :=
  if s.is_opened then .ok s
  else
    (Sampler.buildSampleCounters oracle s).map
      (fun scs => { s with is_opened := true, sample_counters := scs })

/-- `perf::Sampler::close` (src/src/sampler.cpp:187-195): reset the opened
flag and clear the sample counters; a no-op when not opened. -/
def Sampler.closeSampler (s : SamplerState) : SamplerState :=
  if s.is_opened then { s with is_opened := false, sample_counters := [] }
  else s

/-- Claim C10: `open()` on an already-opened sampler is a no-op; a
successful `open()` leaves the sampler opened, so `open(); open()` equals a
single `open()`; `close()` resets the flag and drops the counters, and
`open()` after `close()` rebuilds the same sample counters (same oracle,
same triggers), restoring the same opened state. -/
theorem sampler_open_idempotent (oracle : SamplerOracle) (s sOpened : SamplerState) :
    (s.is_opened = true → Sampler.openSampler oracle s = .ok s) ∧
    (Sampler.openSampler oracle s = .ok sOpened →
       sOpened.is_opened = true ∧
       Sampler.openSampler oracle sOpened = .ok sOpened ∧
       (Sampler.closeSampler sOpened).is_opened = false ∧
       (Sampler.closeSampler sOpened).sample_counters = []) ∧
    (s.is_opened = false → Sampler.openSampler oracle s = .ok sOpened →
       Sampler.openSampler oracle (Sampler.closeSampler sOpened) = .ok sOpened) := by
  have hopened : ∀ t : SamplerState, t.is_opened = true →
      Sampler.openSampler oracle t = .ok t := by
    intro t ht
    simp [Sampler.openSampler, ht]
  refine ⟨hopened s, ?_, ?_⟩
  · intro h
    have hSo : sOpened.is_opened = true := by
      by_cases hs : s.is_opened = true
      · simp [Sampler.openSampler, hs] at h
        rw [← h, hs]
      · simp only [Bool.not_eq_true] at hs
        simp only [Sampler.openSampler, hs, Bool.false_eq_true, if_false] at h
        cases hb : Sampler.buildSampleCounters oracle s with
        | error e => rw [hb] at h; exact absurd h (by simp [Except.map])
        | ok scs =>
            rw [hb] at h
            simp only [Except.map, Except.ok.injEq] at h
            rw [← h]
    refine ⟨hSo, hopened sOpened hSo, ?_, ?_⟩
    · simp [Sampler.closeSampler, hSo]
    · simp [Sampler.closeSampler, hSo]
  · intro hs h
    simp only [Sampler.openSampler, hs, Bool.false_eq_true, if_false] at h
    cases hb : Sampler.buildSampleCounters oracle s with
    | error e => rw [hb] at h; exact absurd h (by simp [Except.map])
    | ok scs =>
        rw [hb] at h
        simp only [Except.map, Except.ok.injEq] at h
        have hSo : sOpened.is_opened = true := by rw [← h]
        have hclose : Sampler.closeSampler sOpened =
            { s with is_opened := false, sample_counters := [] } := by
          simp [Sampler.closeSampler, hSo, ← h]
        rw [hclose]
        have hbuild : Sampler.buildSampleCounters oracle
            { s with is_opened := false, sample_counters := [] } =
            Sampler.buildSampleCounters oracle s := rfl
        simp [Sampler.openSampler, hbuild, hb, Except.map, ← h]

/-- Concrete oracle for the `sampler_open_idempotent` witness. -/
def witnessOracle : SamplerOracle :=
  { counterDef := fun n => some (n, { type := 0, event_id := 11 })
    isMetric := fun _ => false
    attempt := fun _ _ => (5, 0)
    idOf := fun _ => 9
    mmapResult := fun _ => some { data_head := 0, data_tail := 0, bytes := [] } }

/-- Concrete unopened sampler with one trigger for the witness. -/
def witnessSampler : SamplerState :=
  { triggers := [[{ name := "cycles" }]], values := { mask := 0 } }

/-- The state `witnessSampler` reaches after a successful open. -/
def witnessSamplerOpened : SamplerState :=
  { is_opened := true
    triggers := [[{ name := "cycles" }]]
    sample_counters :=
      [{ group := { members :=
           [{ config := { type := 0, event_id := 11, precise_ip_field := 1,
                          is_frequency_field := false,
                          period_or_frequency_field := 4000 },
              id := 9, file_descriptor := 5, attr_precise_ip := 1 }] }
         counter_names := []
         buffer := some { data_head := 0, data_tail := 0, bytes := [] } }]
    values := { mask := 0 } }

/-- Witness for `sampler_open_idempotent`: the concrete open succeeds, a
second open is a no-op, and open after close restores the state. -/
theorem sampler_open_idempotent_witness :
    Sampler.openSampler witnessOracle witnessSamplerOpened = .ok witnessSamplerOpened ∧
    Sampler.openSampler witnessOracle (Sampler.closeSampler witnessSamplerOpened) =
      .ok witnessSamplerOpened :=
  ⟨((sampler_open_idempotent witnessOracle witnessSampler witnessSamplerOpened).2.1
      rfl).2.1,
   (sampler_open_idempotent witnessOracle witnessSampler witnessSamplerOpened).2.2
      rfl rfl⟩

end Perfcpp
